import Mathlib

/-!
Shallow embedding of the session-orchestration layer of `src/ghost.py`
(the `Session` class, the `can_load_page` decorator, the dialog bridge on
`GhostWebPage`, and the cookie translation helpers), together with theorems
checking the specification claims against it.

Modelling conventions:
* Python `None` becomes `Option.none`; raised exceptions become
  `Except.error` values of the `GhostError` type below.
* Machine-independent Python integers become `Nat` (no overflow occurs in
  the modelled code; the only boundary constant, 2147483647, appears
  explicitly in the source).
* Qt engine callbacks are modelled as explicit `EngineEvent` values; one
  `processEvents` pump delivers a list of pending events to the session
  handlers exactly as the Qt signal connections in `Session.__init__` do.
* Wall-clock time (`time.time()`) is modelled as an explicit sequence of
  clock readings handed to the wait primitive.
-/

/-- Exceptions raised by the embedded code.  Each constructor corresponds to
a `raise` site (or a runtime error Python itself raises) in `src/ghost.py`:
`timeout` is `TimeoutError(timeout_message)` from `Session.wait_for`;
`mustSpecifyConfirmValue` / `mustSpecifyPromptValue` are the
`Error(...)` raises in `GhostWebPage.javaScriptConfirm` /
`javaScriptPrompt`; `unsupportedFieldTag` and `elementNotFound` are the
raises in `Session.set_field_value`; `attributeError a` models Python
raising `AttributeError` for a missing attribute named `a`; `typeError`
models Python raising `TypeError` (string formatting `%d` with `None`). -/
inductive GhostError where
  | timeout (msg : String)
  | mustSpecifyConfirmValue
  | mustSpecifyPromptValue
  | unsupportedFieldTag
  | elementNotFound
  | attributeError (attr : String)
  | typeError
  deriving DecidableEq, Repr

/-- Values usable as dialog expectations (`Session._confirm_expected`,
`Session._prompt_expected`, and `open`'s `default_popup_response`).  The
source accepts a fixed boolean (confirm), a fixed string (prompt), or a
zero-argument callable; `GhostWebPage._get_value` evaluates a callable at
dialog time, so a callable is modelled by the fixed value it produces. -/
inductive DialogAnswer where
  | bool (b : Bool)
  | str (s : String)
  deriving DecidableEq, Repr

/-- One finished network reply as delivered by the engine
(`QNetworkReply`): resolved URL, the optional integer HTTP status
(`reply.attribute(QNetworkRequest.HttpStatusCodeAttribute)`, `none` for
failed / non-HTTP transport), and the raw payload bytes. -/
structure Reply where
  url : String
  status : Option Nat
  data : List Nat
  deriving DecidableEq, Repr

/-- Immutable snapshot of one completed network exchange, from the
`HttpResource` class of `src/ghost.py` (headers are captured there too but
no claim mentions them, so they are omitted from the snapshot). -/
structure HttpResource where
  url : String
  http_status : Option Nat
  content : List Nat
  deriving DecidableEq, Repr

/-- Building an `HttpResource` from a finished reply
(`HttpResource.__init__`). -/
def HttpResource.ofReply (r : Reply) : HttpResource :=
  { url := r.url, http_status := r.status, content := r.data }

/-- The mutable per-session state of the `Session` class: the fields set in
`Session.__init__` plus the class-level default attributes (`_alert`,
`_confirm_expected`, `_prompt_expected`, `_upload_file`).  `frameUrl`
models `self.main_frame.url().toString()`, the engine-maintained URL of
the main frame. -/
structure SessionState where
  loaded : Bool
  http_resources : List HttpResource
  frameUrl : String
  confirm_expected : Option DialogAnswer
  prompt_expected : Option DialogAnswer
  popup_messages : List String
  alertMsg : Option String
  auth : Option (String × String)
  auth_attempt : Nat
  upload_file : Option String
  wait_timeout : Nat
  deriving DecidableEq, Repr

/-- A freshly started session: `Session.__init__` sets
`self.http_resources = []`, `self.loaded = True`,
`self.popup_messages = []`, the default `wait_timeout=0`, and leaves the
class defaults `_alert = _confirm_expected = _prompt_expected =
_upload_file = None`; `_auth` / `_auth_attempt` are first assigned in
`open` and are modelled as `none` / `0` before that. -/
def initialSession : SessionState :=
  { loaded := true
    http_resources := []
    frameUrl := ""
    confirm_expected := none
    prompt_expected := none
    popup_messages := []
    alertMsg := none
    auth := none
    auth_attempt := 0
    upload_file := none
    wait_timeout := 0 }

/-- Handler `Session._page_loaded` (connected to the `loadFinished`
signal): sets the `loaded` flag. -/
def page_loaded (s : SessionState) : SessionState :=
  { s with loaded := true }

/-- Handler `Session._page_load_started` (connected to the `loadStarted`
signal): clears the `loaded` flag. -/
def page_load_started (s : SessionState) : SessionState :=
  { s with loaded := false }

/-- Handler `Session._request_ended` (connected to the manager's
`finished` signal): when the reply carries an HTTP status attribute, an
`HttpResource` is built from it and appended to `http_resources`;
otherwise the reply is ignored. -/
def request_ended (s : SessionState) (reply : Reply) : SessionState :=
  if reply.status.isSome then
    { s with http_resources := s.http_resources ++ [HttpResource.ofReply reply] }
  else
    s

/-- `Session._release_last_resources`: returns the accumulated resource
buffer and resets it to the empty list. -/
def release_last_resources (s : SessionState) : List HttpResource × SessionState :=
  (s.http_resources, { s with http_resources := [] })

/-- Engine callbacks observable by the session handlers connected in
`Session.__init__`: `loadStarted`, `loadFinished`, and the network
manager's `finished(reply)` signal.  `frameUrlChanged` models the engine
updating `main_frame.url()` while a navigation commits (QtWebKit side;
the session only ever reads this value). -/
inductive EngineEvent where
  | loadStarted
  | loadFinished
  | replyFinished (r : Reply)
  | frameUrlChanged (u : String)
  deriving DecidableEq, Repr

/-- Dispatch of one pending engine event to the connected session
handler. -/
def processEvent (s : SessionState) : EngineEvent → SessionState
  | EngineEvent.loadStarted => page_load_started s
  | EngineEvent.loadFinished => page_loaded s
  | EngineEvent.replyFinished r => request_ended s r
  | EngineEvent.frameUrlChanged u => { s with frameUrl := u }

/-- One `QApplication.processEvents()` pump: delivers every pending engine
event, in order, to the session handlers (`Session.sleep` runs such pumps
in a loop). -/
def processEvents (s : SessionState) (es : List EngineEvent) : SessionState :=
  es.foldl processEvent s

/-- The poll loop of `Session.wait_for` specialised to the condition
`lambda: self.loaded` used by `wait_for_page_loaded`, with the engine made
explicit: `chunks` lists, per poll iteration, the pending events the
`self.sleep()` pump of that iteration delivers.  The condition is checked
before any sleeping (an already-true condition returns at once); `none`
models the `TimeoutError` path, reached when the event trace is exhausted
before `loaded` becomes true. -/
def waitForLoaded : SessionState → List (List EngineEvent) → Option SessionState
  | s, chunks =>
    if s.loaded then some s
    else
      match chunks with
      | [] => none
      | c :: rest => waitForLoaded (processEvents s c) rest

/-- Python `url.split("#")[0]` from `Session.wait_for_page_loaded`: the
prefix of the URL before the first `#` character (the whole URL when no
`#` occurs). -/
def url_without_hash (url : String) : String :=
  String.mk (url.toList.takeWhile (fun c => c ≠ '#'))

/-- `Session.wait_for_page_loaded`: wait until `loaded` is true, drain the
resource buffer, then scan the drained resources, remembering the last one
whose URL equals the final frame URL exactly or with the frame URL's
`#`-fragment stripped; returns the matched page resource (if any), the
drained resources, and the resulting session state. -/
def wait_for_page_loaded (s : SessionState) (chunks : List (List EngineEvent)) :
    Option (Option HttpResource × List HttpResource × SessionState) :=
  match waitForLoaded s chunks with
  | none => none
  | some s1 =>
    let rel := release_last_resources s1
    let resources := rel.1
    let s2 := rel.2
    let url := s2.frameUrl
    let noHash := url_without_hash url
    let page := resources.foldl
      (fun acc r => if url == r.url || noHash == r.url then some r else acc)
      (none : Option HttpResource)
    some (page, resources, s2)

/-- Result of an operation wrapped by the `can_load_page` decorator:
either the wrapped function's own return value (when `expect_loading` was
not requested) or the `(page, resources)` pair of
`wait_for_page_loaded`. -/
inductive CanLoadResult (α : Type) where
  | direct (a : α) (s : SessionState)
  | loadedResult (page : Option HttpResource) (resources : List HttpResource) (s : SessionState)
  deriving DecidableEq, Repr

/-- The `can_load_page` decorator of `src/ghost.py`: when `expect_loading`
is true the session's `loaded` flag is set false, the wrapped function is
invoked (its return value discarded), and `wait_for_page_loaded` produces
the result; otherwise the wrapped function is invoked directly and its
value returned.  The wrapped function `func` is modelled as a state
transformer returning a value of type `α`; `chunks` carries the engine
events delivered during the wait (unused on the direct path, exactly as
the direct path of the decorator never sleeps).  `none` models the
`TimeoutError` escape of the wait. -/
def can_load_page {α : Type} (func : SessionState → SessionState × α)
    (expect_loading : Bool) (chunks : List (List EngineEvent)) (s : SessionState) :
    Option (CanLoadResult α) :=
  if expect_loading then
    let s1 := { s with loaded := false }
    let s2 := (func s1).1
    match wait_for_page_loaded s2 chunks with
    | none => none
    | some (page, resources, s3) => some (CanLoadResult.loadedResult page resources s3)
  else
    let r := func s
    some (CanLoadResult.direct r.2 r.1)

/-- The loop body of `Session.wait_for`, with time explicit: `cond i` is
the value of `condition()` at iteration `i` and `t i` the `time.time()`
reading taken inside iteration `i`.  Per iteration the condition is
evaluated first; while it is false, the clock is compared against the
deadline (`started_at + timeout`) and `TimeoutError(msg)` is raised on
strict excess, otherwise the loop sleeps (pumping events) and retries.
`fuel` bounds the number of modelled iterations; `none` means the loop was
still running when the fuel ran out. -/
def wait_for_go (cond : Nat → Bool) (t : Nat → Nat) (deadline : Nat) (msg : String) :
    Nat → Nat → Option (Except GhostError Unit)
  | 0, _ => none
  | fuel + 1, i =>
    if cond i then some (Except.ok ())
    else if deadline < t i then some (Except.error (GhostError.timeout msg))
    else wait_for_go cond t deadline msg fuel (i + 1)

/-- `Session.wait_for(condition, timeout_message, timeout)`: the effective
timeout is the explicit argument when supplied and the session default
`wait_timeout` otherwise (`timeout = self.wait_timeout if timeout is None
else timeout`); `startedAt` is the `time.time()` reading taken before the
loop. -/
def wait_for (cond : Nat → Bool) (t : Nat → Nat) (startedAt : Nat)
    (wait_timeout : Nat) (timeout : Option Nat) (msg : String) (fuel : Nat) :
    Option (Except GhostError Unit) :=
  wait_for_go cond t (startedAt + timeout.getD wait_timeout) msg fuel 0

lemma wait_for_go_error_sound (cond : Nat → Bool) (t : Nat → Nat)
    (deadline : Nat) (msg : String) :
    ∀ fuel i e, wait_for_go cond t deadline msg fuel i = some (Except.error e) →
      e = GhostError.timeout msg ∧ ∃ j, i ≤ j ∧ j < i + fuel ∧ deadline < t j := by
  intro fuel
  induction fuel with
  | zero =>
    intro i e h
    simp [wait_for_go] at h
  | succ n ih =>
    intro i e h
    by_cases hc : cond i = true
    · simp [wait_for_go, hc] at h
    · by_cases hd : deadline < t i
      · simp [wait_for_go, hc, hd] at h
        exact ⟨h.symm, i, le_refl i, by omega, hd⟩
      · simp only [wait_for_go, hc, if_false, hd, if_neg hd] at h
        obtain ⟨he, j, hij, hjlt, hdj⟩ := ih (i + 1) e h
        exact ⟨he, j, by omega, by omega, hdj⟩

lemma wait_for_go_times_out (cond : Nat → Bool) (t : Nat → Nat)
    (deadline : Nat) (msg : String) (hc : ∀ i, cond i = false) :
    ∀ fuel i N, i ≤ N → N < i + fuel → deadline < t N →
      wait_for_go cond t deadline msg fuel i = some (Except.error (GhostError.timeout msg)) := by
  intro fuel
  induction fuel with
  | zero =>
    intro i N h1 h2 h3
    omega
  | succ n ih =>
    intro i N h1 h2 h3
    by_cases hd : deadline < t i
    · simp [wait_for_go, hc i, hd]
    · have hiN : i < N := by
        rcases Nat.lt_or_ge i N with hlt | hge
        · exact hlt
        · have : i = N := Nat.le_antisymm h1 hge
          subst this
          exact absurd h3 hd
      have := ih (i + 1) N (by omega) (by omega) h3
      simp [wait_for_go, hc i, hd, this]

/-- The scoped statement `Session.confirm` of `src/ghost.py`, a
`contextlib.contextmanager` generator: it sets `_confirm_expected`, yields
to the caller's block, and assigns `_confirm_expected = None` after the
yield.  There is no `try`/`finally` around the yield, so per generator
semantics the assignment after the yield runs only when the block
completes normally; when the block raises, the exception is thrown into
the generator at the yield point and propagates, skipping the assignment.
The block `body` is modelled as a state transformer that also returns the
exception it raised, if any. -/
def SessionState.confirm (s : SessionState) (confirmVal : DialogAnswer)
    (body : SessionState → SessionState × Option String) :
    SessionState × Option String :=
  let s1 := { s with confirm_expected := some confirmVal }
  let r := body s1
  match r.2 with
  | none => ({ r.1 with confirm_expected := none }, none)
  | some e => (r.1, some e)

/-- The scoped statement `Session.prompt` of `src/ghost.py`; same
structure as `SessionState.confirm` but for `_prompt_expected` (and again
without `try`/`finally` around the yield). -/
def SessionState.prompt (s : SessionState) (promptVal : DialogAnswer)
    (body : SessionState → SessionState × Option String) :
    SessionState × Option String :=
  let s1 := { s with prompt_expected := some promptVal }
  let r := body s1
  match r.2 with
  | none => ({ r.1 with prompt_expected := none }, none)
  | some e => (r.1, some e)

/-- `GhostWebPage.javaScriptConfirm`: raises the configuration error when
no confirm expectation is registered; otherwise records the message in the
popup transcript and returns the expected value (a registered callable is
evaluated by `_get_value`, modelled as the fixed value it produces). -/
def javaScriptConfirm (s : SessionState) (message : String) :
    Except GhostError (SessionState × DialogAnswer) :=
  match s.confirm_expected with
  | none => Except.error GhostError.mustSpecifyConfirmValue
  | some v =>
    Except.ok ({ s with popup_messages := s.popup_messages ++ [message] }, v)

/-- `GhostWebPage.javaScriptPrompt`: raises the configuration error when
no prompt expectation is registered; otherwise records the message in the
popup transcript and returns the expected value (the empty-string case
only logs a warning in the source and still proceeds). -/
def javaScriptPrompt (s : SessionState) (message : String) :
    Except GhostError (SessionState × DialogAnswer) :=
  match s.prompt_expected with
  | none => Except.error GhostError.mustSpecifyPromptValue
  | some v =>
    Except.ok ({ s with popup_messages := s.popup_messages ++ [message] }, v)

/-- A cookie of the engine's jar (`QNetworkCookie`): `expirationDate` is
the optional expiration instant as an epoch second (`none` for a session
cookie, whose `QDateTime` is invalid). -/
structure QtCookie where
  name : String
  value : String
  domain : String
  path : String
  secure : Bool
  expirationDate : Option Nat
  deriving DecidableEq, Repr

/-- A cookie of the portable jar (`http.cookiejar.Cookie`), keeping the
fields `Session.save_cookies.toPyCookie` populates. -/
structure PyCookie where
  name : String
  value : String
  port_specified : Bool
  domain : String
  domain_specified : Bool
  domain_initial_dot : Option Bool
  path : Option String
  path_specified : Bool
  secure : Bool
  expires : Nat
  discard : Bool
  deriving DecidableEq, Repr

/-- `QDateTime.toTime_t()` on the cookie's expiration date: the epoch
second for a valid date; an invalid `QDateTime` (session cookie) yields
`uint(-1) = 4294967295` in Qt 5. -/
def toTime_t : Option Nat → Nat
  | some n => n
  | none => 4294967295

/-- Python `v.startswith(".")`. -/
def startsDot (s : String) : Bool :=
  match s.toList with
  | [] => false
  | c :: _ => c == '.'

/-- `Session.save_cookies.toPyCookie`: translates one engine cookie to the
portable representation; the expiry is clamped to the signed-32-bit
maximum (`expires = 2147483647 if v > 2147483647 else v`). -/
def toPyCookie (c : QtCookie) : PyCookie :=
  let pathSpecified := c.path != ""
  let domainSpecified := c.domain != ""
  let v := toTime_t c.expirationDate
  { name := c.name
    value := c.value
    port_specified := false
    domain := c.domain
    domain_specified := domainSpecified
    domain_initial_dot := if domainSpecified then some (startsDot c.domain) else none
    path := if pathSpecified then some c.path else none
    path_specified := pathSpecified
    secure := c.secure
    expires := if 2147483647 < v then 2147483647 else v
    discard := false }

/-- `Session.load_cookies.toQtCookie`: builds `QNetworkCookie(name,
value)` (whose defaults are empty domain and path, not secure, no
expiration date), then sets the secure flag, the path when
`path_specified`, the domain when non-empty, and the expiration date when
`expires` is non-zero (`if PyCookie.expires and PyCookie.expires != 0`). -/
def toQtCookie (p : PyCookie) : QtCookie :=
  let q0 : QtCookie :=
    { name := p.name, value := p.value, domain := "", path := ""
      secure := false, expirationDate := none }
  let q1 := { q0 with secure := p.secure }
  let q2 := if p.path_specified then { q1 with path := p.path.getD "" } else q1
  let q3 := if p.domain != "" then { q2 with domain := p.domain } else q2
  if p.expires != 0 then { q3 with expirationDate := some p.expires } else q3

/-- `Session.save_cookies` over an in-memory jar: every engine cookie is
translated with `toPyCookie` and stored in the portable jar (the LWP text
serialisation of the portable jar is out of the modelled core and
preserves these fields). -/
def save_cookies (jar : List QtCookie) : List PyCookie :=
  jar.map toPyCookie

/-- `Session.load_cookies.toQtCookieJar`: keeps the existing engine
cookies only when `keep_old`, then appends each imported cookie translated
with `toQtCookie`. -/
def load_cookies (pyJar : List PyCookie) (qtJar : List QtCookie) (keep_old : Bool) :
    List QtCookie :=
  (if keep_old then qtJar else []) ++ pyJar.map toQtCookie

/-- Python `str.lower()` restricted to what the source applies it to (tag
names and type attributes, ASCII). -/
def lowerString (s : String) : String :=
  String.mk (s.toList.map Char.toLower)

/-- A DOM element handle (`QWebElement`) as used by
`Session.set_field_value`: tag name, attribute map, plain-text content
(`setPlainText` target for textareas), and, for `select` controls, the
`option` children as `(value attribute, selected)` pairs together with the
control's selected index (the `this.selected` / `this.selectedIndex`
JavaScript properties the source assigns). -/
structure Element where
  tagName : String
  attrs : List (String × String)
  plainText : String
  options : List (String × Bool)
  selectedIndex : Option Nat
  deriving DecidableEq, Repr

/-- `QWebElement.attribute(name)`: the attribute's value, or the empty
string when the attribute is absent. -/
def getAttr (el : Element) (name : String) : String :=
  ((el.attrs.find? (fun kv => kv.1 == name)).map Prod.snd).getD ""

/-- `QWebElement.setAttribute(name, val)`: overwrite an existing
attribute or append a new one. -/
def setAttr (el : Element) (name val : String) : Element :=
  if (el.attrs.find? (fun kv => kv.1 == name)).isSome then
    { el with attrs := el.attrs.map (fun kv => if kv.1 == name then (name, val) else kv) }
  else
    { el with attrs := el.attrs ++ [(name, val)] }

/-- `QWebElement.removeAttribute(name)`. -/
def removeAttr (el : Element) (name : String) : Element :=
  { el with attrs := el.attrs.filter (fun kv => !(kv.1 == name)) }

/-- The `value` argument of `Session.set_field_value`: scripts pass either
a string or a boolean (for single checkboxes). -/
inductive FieldValue where
  | str (s : String)
  | bool (b : Bool)
  deriving DecidableEq, Repr

/-- Python `el.attribute("value") == value`: a string attribute compared
with the supplied value; comparing a string with a boolean is `False` in
Python. -/
def valueEq (v : FieldValue) (attrVal : String) : Bool :=
  match v with
  | FieldValue.str s => s == attrVal
  | FieldValue.bool _ => false

/-- Python `value is True`. -/
def valueIsTrue : FieldValue → Bool
  | FieldValue.bool true => true
  | _ => false

/-- Python `str(value)` as staged for the upload path. -/
def renderValue : FieldValue → String
  | FieldValue.str s => s
  | FieldValue.bool true => "True"
  | FieldValue.bool false => "False"

/-- `_set_checkbox_value` of `Session.set_field_value`: check the box when
the value is `True`, uncheck otherwise (focus changes are engine-side and
not part of the state). -/
def set_checkbox_value (el : Element) (v : FieldValue) : Element :=
  if valueIsTrue v then setAttr el "checked" "checked"
  else removeAttr el "checked"

/-- `_set_checkboxes_value`: across a checkbox group, check exactly the
element whose `value` attribute matches, uncheck the rest. -/
def set_checkboxes_value (els : List Element) (v : FieldValue) : List Element :=
  els.map (fun el =>
    if valueEq v (getAttr el "value") then set_checkbox_value el (FieldValue.bool true)
    else set_checkbox_value el (FieldValue.bool false))

/-- `_set_radio_value`: check every radio of the matched set whose `value`
attribute equals the target value. -/
def set_radio_value (els : List Element) (v : FieldValue) : List Element :=
  els.map (fun el =>
    if valueEq v (getAttr el "value") then setAttr el "checked" "checked" else el)

/-- `_set_text_value`: assign the `value` attribute directly. -/
def set_text_value (el : Element) (v : FieldValue) : Element :=
  setAttr el "value" (renderValue v)

/-- `_set_select_value`: walk the `option` children; at the first one
whose `value` attribute matches, mark it selected and set the control's
selected index to its position. -/
def set_select_value (el : Element) (v : FieldValue) : Element :=
  match el.options.findIdx? (fun o => valueEq v o.1) with
  | some i =>
    { el with
      options := el.options.set i (((el.options.get? i).getD ("", false)).1, true)
      selectedIndex := some i }
  | none => el

/-- `_set_textarea_value`: set the plain-text content. -/
def set_textarea_value (el : Element) (v : FieldValue) : Element :=
  { el with plainText := renderValue v }

/-- The `type` strings of the text-like dispatch row of
`Session.set_field_value`, in source order (including the source's
`datatime` spelling). -/
def textTypes : List String :=
  ["color", "date", "datatime", "datetime-local", "email", "hidden", "month",
   "number", "password", "range", "search", "tel", "text", "time", "url",
   "week", ""]

/-- The events `Session.set_field_value` synthesises after assignment:
`input` and `change` via `fire`, then a `blur` via `call` unless
suppressed. -/
def firedEvents (blur : Bool) : List String :=
  ["input", "change"] ++ (if blur then ["blur"] else [])

/-- Outcome of `Session.set_field_value`: the session state (the upload
path drains the resource buffer through `click` / `evaluate`), the
elements matched by the selector after mutation, the `(res, resources)`
pair the method returns (`res` is the JavaScript value of the synthetic
click on the upload path, `None` otherwise), and the synthesised events.
JavaScript event dispatch itself is engine-side and leaves the element
attributes unchanged. -/
structure SfvResult where
  session : SessionState
  elements : List Element
  res : Option Unit
  resources : List HttpResource
  fired : List String
  deriving DecidableEq, Repr

/-- `Session.set_field_value` of `src/ghost.py`: `els` is the element list
the selector resolves to (`findFirstElement` is its head,
`findAllElement` the whole list).  An empty resolution raises the
element-not-found error.  The dispatch is on the lowercased tag name and,
for inputs, the lowercased `type` attribute; note that an `input` whose
type matches no listed row falls through every branch without raising
(the `unsupported field tag` raise is attached only to the tag-name
chain).  After the dispatch, `input` and `change` (and optionally `blur`)
events are synthesised.  The `file` row stages the upload path, performs a
synthetic click (whose `evaluate` drains the resource buffer), and clears
the staged path. -/
def set_field_value (s : SessionState) (els : List Element) (value : FieldValue)
    (blur : Bool) : Except GhostError SfvResult :=
  match els with
  | [] => Except.error GhostError.elementNotFound
  | el :: rest =>
    let tag := lowerString el.tagName
    let dispatch : Except GhostError (SessionState × List Element × Option Unit × List HttpResource) :=
      if tag == "select" then
        Except.ok (s, set_select_value el value :: rest, none, [])
      else if tag == "textarea" then
        Except.ok (s, set_textarea_value el value :: rest, none, [])
      else if tag == "input" then
        let type_ := lowerString (getAttr el "type")
        if textTypes.contains type_ then
          Except.ok (s, set_text_value el value :: rest, none, [])
        else if type_ == "checkbox" then
          if 1 < (el :: rest).length then
            Except.ok (s, set_checkboxes_value (el :: rest) value, none, [])
          else
            Except.ok (s, set_checkbox_value el value :: rest, none, [])
        else if type_ == "radio" then
          Except.ok (s, set_radio_value (el :: rest) value, none, [])
        else if type_ == "file" then
          let s1 := { s with upload_file := some (renderValue value) }
          let rel := release_last_resources s1
          Except.ok ({ rel.2 with upload_file := none }, el :: rest, some (), rel.1)
        else
          Except.ok (s, el :: rest, none, [])
      else
        Except.error GhostError.unsupportedFieldTag
    match dispatch with
    | Except.error e => Except.error e
    | Except.ok (s2, els2, res, resources) =>
      Except.ok { session := s2, elements := els2, res := res,
                  resources := resources, fired := firedEvents blur }

/-- Presence of the instance attributes `Session.exit` deletes with
`del`.  `Session.__init__` creates all four; `del self.x` removes the
instance attribute, and a second `del` (or any accidental re-entry) raises
`AttributeError` because none of these names has a class-level fallback. -/
structure TeardownState where
  hasWebview : Bool
  hasCookieJar : Bool
  hasManager : Bool
  hasMainFrame : Bool
  deriving DecidableEq, Repr

/-- Python `del self.<name>`: succeeds when the instance attribute is
present, raises `AttributeError` otherwise. -/
def delAttr (present : Bool) (name : String) : Except GhostError Unit :=
  if present then Except.ok () else Except.error (GhostError.attributeError name)

/-- `Session.exit` of `src/ghost.py`: `self.page.deleteLater()` and
`self.sleep()` do not touch the four deleted attributes and are modelled
as no-ops on the teardown state; then `webview`, `cookie_jar`, `manager`
and `main_frame` are deleted in that order. -/
def Session.exit (t : TeardownState) : Except GhostError TeardownState :=
  match delAttr t.hasWebview "webview" with
  | Except.error e => Except.error e
  | Except.ok _ =>
    match delAttr t.hasCookieJar "cookie_jar" with
    | Except.error e => Except.error e
    | Except.ok _ =>
      match delAttr t.hasManager "manager" with
      | Except.error e => Except.error e
      | Except.ok _ =>
        match delAttr t.hasMainFrame "main_frame" with
        | Except.error e => Except.error e
        | Except.ok _ =>
          Except.ok { hasWebview := false, hasCookieJar := false,
                      hasManager := false, hasMainFrame := false }

/-- The credential slots of a `QAuthenticator`, recording what has been
set on it.  The class exposes `setUser` and `setPassword`; it has no
attribute named `serUser`. -/
structure Authenticator where
  user : Option String
  password : Option String
  deriving DecidableEq, Repr

/-- `Session._authenticate` of `src/ghost.py`, the slot connected to the
engine's authentication-required signals.  When credentials are pending
and the one-shot counter is zero, the source executes
`authenticator.serUser(username)` — but `QAuthenticator` has no attribute
`serUser` (the adjacent line uses `setPassword`; `setUser` was evidently
intended), so Python raises `AttributeError` at the attribute lookup,
before any credential is set and before the counter is incremented.
Otherwise the authenticator is left untouched. -/
def authenticate (s : SessionState) (a : Authenticator) :
    Except GhostError (SessionState × Authenticator) :=
  match s.auth with
  | some _ =>
    if s.auth_attempt == 0 then
      Except.error (GhostError.attributeError "serUser")
    else
      Except.ok (s, a)
  | none => Except.ok (s, a)

/-- The frame-size guard of `Session.capture` (the scroll-bar policy,
painting, and region cropping are engine-side): with the hard ceiling
`max_size = 23170 * 23170`, a frame whose contents area exceeds the
ceiling keeps the current viewport, and if that viewport's area also
exceeds the ceiling the method returns `None`; otherwise the viewport is
set to the contents size and an image of the resulting viewport dimensions
is rendered.  The result is the rendered image's `(width, height)`, or
`none` for the explicit too-large outcome. -/
def capture (frameWidth frameHeight viewportWidth viewportHeight : Nat) :
    Option (Nat × Nat) :=
  let maxSize := 23170 * 23170
  if maxSize < frameHeight * frameWidth then
    if maxSize < viewportHeight * viewportWidth then none
    else some (viewportWidth, viewportHeight)
  else
    some (frameWidth, frameHeight)

/-- `Session.open` of `src/ghost.py`, keeping the session-state effects in
source order: `self._auth` and `self._auth_attempt` are assigned, the
frame load is started, `self.loaded = False`, then a non-`None`
`default_popup_response` is installed as both the prompt and the confirm
expectation; when `wait` is true the source first executes
`print("waiting ... (in %d seconds)" % timeout)`, which raises `TypeError`
when `timeout` is `None` (`%d` rejects `None`), and otherwise blocks in
`wait_for_page_loaded` (whose timeout escape is the `TimeoutError`).  The
method-name validation and request building concern only the engine
request and are omitted.  The result pairs the returned
`(page, resources)` (or `none` when `wait` is false, where the source
returns `None`) with the session state after the call.
`openPrepare` is the state after the straight-line part of the method
(credential assignment, load start, flag clear, popup-response
installation), before any waiting. -/
def openPrepare (s : SessionState) (auth : Option (String × String))
    (defaultPopupResponse : Option DialogAnswer) : SessionState :=
  let s1 : SessionState := { s with auth := auth, auth_attempt := 0, loaded := false }
  match defaultPopupResponse with
  | some v => { s1 with prompt_expected := some v, confirm_expected := some v }
  | none => s1

/-- The full `Session.open`, composing `openPrepare` with the optional
wait (see the comment on `openPrepare`). -/
def openSession (s : SessionState) (auth : Option (String × String))
    (defaultPopupResponse : Option DialogAnswer) (wait : Bool)
    (timeout : Option Nat) (chunks : List (List EngineEvent)) :
    Except GhostError (Option (Option HttpResource × List HttpResource) × SessionState) :=
  let s2 : SessionState := openPrepare s auth defaultPopupResponse
  if wait then
    match timeout with
    | none => Except.error GhostError.typeError
    | some _ =>
      match wait_for_page_loaded s2 chunks with
      | none => Except.error (GhostError.timeout "Unable to load requested page")
      | some (page, resources, s3) => Except.ok (some (page, resources), s3)
  else
    Except.ok (none, s2)

lemma waitForLoaded_loaded :
    ∀ (chunks : List (List EngineEvent)) (s s1 : SessionState),
      waitForLoaded s chunks = some s1 → s1.loaded = true := by
  intro chunks
  induction chunks with
  | nil =>
    intro s s1 h
    by_cases hl : s.loaded = true
    · simp [waitForLoaded, hl] at h
      subst h
      exact hl
    · simp [waitForLoaded, hl] at h
  | cons c rest ih =>
    intro s s1 h
    by_cases hl : s.loaded = true
    · simp [waitForLoaded, hl] at h
      subst h
      exact hl
    · simp only [waitForLoaded, hl, if_false, if_neg hl] at h
      exact ih (processEvents s c) s1 h

lemma processEvent_preserves_dialogs (s : SessionState) (e : EngineEvent) :
    (processEvent s e).confirm_expected = s.confirm_expected ∧
    (processEvent s e).prompt_expected = s.prompt_expected := by
  cases e with
  | loadStarted => exact ⟨rfl, rfl⟩
  | loadFinished => exact ⟨rfl, rfl⟩
  | replyFinished r =>
    by_cases h : r.status.isSome <;> simp [processEvent, request_ended, h]
  | frameUrlChanged u => exact ⟨rfl, rfl⟩

lemma processEvents_preserves_dialogs :
    ∀ (es : List EngineEvent) (s : SessionState),
      (processEvents s es).confirm_expected = s.confirm_expected ∧
      (processEvents s es).prompt_expected = s.prompt_expected := by
  intro es
  induction es with
  | nil => intro s; exact ⟨rfl, rfl⟩
  | cons e rest ih =>
    intro s
    have h1 := processEvent_preserves_dialogs s e
    have h2 := ih (processEvent s e)
    simp only [processEvents, List.foldl] at h2 ⊢
    exact ⟨h2.1.trans h1.1, h2.2.trans h1.2⟩

lemma waitForLoaded_preserves_dialogs :
    ∀ (chunks : List (List EngineEvent)) (s s1 : SessionState),
      waitForLoaded s chunks = some s1 →
      s1.confirm_expected = s.confirm_expected ∧
      s1.prompt_expected = s.prompt_expected := by
  intro chunks
  induction chunks with
  | nil =>
    intro s s1 h
    by_cases hl : s.loaded = true
    · simp [waitForLoaded, hl] at h
      subst h
      exact ⟨rfl, rfl⟩
    · simp [waitForLoaded, hl] at h
  | cons c rest ih =>
    intro s s1 h
    by_cases hl : s.loaded = true
    · simp [waitForLoaded, hl] at h
      subst h
      exact ⟨rfl, rfl⟩
    · simp only [waitForLoaded, hl, if_false, if_neg hl] at h
      have h1 := ih (processEvents s c) s1 h
      have h2 := processEvents_preserves_dialogs c s
      exact ⟨h1.1.trans h2.1, h1.2.trans h2.2⟩

lemma foldl_pick_some (p : HttpResource → Bool) :
    ∀ (l : List HttpResource) (init : Option HttpResource) (r : HttpResource),
      l.foldl (fun acc x => if p x then some x else acc) init = some r →
      (r ∈ l ∧ p r = true) ∨ init = some r := by
  intro l
  induction l with
  | nil =>
    intro init r h
    exact Or.inr h
  | cons a rest ih =>
    intro init r h
    simp only [List.foldl] at h
    rcases ih (if p a then some a else init) r h with hmem | hinit
    · exact Or.inl ⟨List.mem_cons_of_mem a hmem.1, hmem.2⟩
    · by_cases hp : p a = true
      · rw [if_pos hp] at hinit
        have : a = r := by injection hinit
        subst this
        exact Or.inl ⟨List.mem_cons_self a rest, hp⟩
      · rw [if_neg hp] at hinit
        exact Or.inr hinit

lemma foldl_pick_none (p : HttpResource → Bool) :
    ∀ (l : List HttpResource) (init : Option HttpResource),
      (∀ x ∈ l, p x = false) →
      l.foldl (fun acc x => if p x then some x else acc) init = init := by
  intro l
  induction l with
  | nil => intro init _; rfl
  | cons a rest ih =>
    intro init hall
    simp only [List.foldl]
    rw [if_neg (by simp [hall a (List.mem_cons_self a rest)])]
    exact ih init (fun x hx => hall x (List.mem_cons_of_mem a hx))

lemma ingest_spec :
    ∀ (replies : List Reply) (s : SessionState),
      (replies.foldl request_ended s).http_resources =
        s.http_resources ++
          (replies.filter (fun r => r.status.isSome)).map HttpResource.ofReply := by
  intro replies
  induction replies with
  | nil => intro s; simp
  | cons r rest ih =>
    intro s
    simp only [List.foldl, List.filter_cons]
    by_cases h : r.status.isSome
    · rw [if_pos (by simp [h])]
      rw [ih (request_ended s r)]
      simp [request_ended, h]
    · rw [if_neg (by simp [Bool.not_eq_true] at h ⊢; exact h)]
      rw [ih (request_ended s r)]
      simp [request_ended, h]

/-- Claim C2: for every condition that never becomes true and every
timeout (the explicit argument, or the session default `wait_timeout` when
the argument is unset), `Session.wait_for` raises `TimeoutError` carrying
exactly the supplied failure message once the clock passes the deadline
`started_at + timeout`, and any raised timeout error happens only at an
iteration whose clock reading strictly exceeds that deadline — never
before the deadline has elapsed. -/
theorem wait_for_timeout_spec (cond : Nat → Bool) (t : Nat → Nat)
    (startedAt wait_timeout : Nat) (timeout : Option Nat) (msg : String)
    (fuel N : Nat)
    (hcond : ∀ i, cond i = false)
    (hN : startedAt + timeout.getD wait_timeout < t N)
    (hfuel : N < fuel) :
    wait_for cond t startedAt wait_timeout timeout msg fuel
        = some (Except.error (GhostError.timeout msg)) ∧
    ∀ fuel2 e, wait_for cond t startedAt wait_timeout timeout msg fuel2
        = some (Except.error e) →
      e = GhostError.timeout msg ∧
        ∃ j, startedAt + timeout.getD wait_timeout < t j := by
  constructor
  · exact wait_for_go_times_out cond t (startedAt + timeout.getD wait_timeout) msg hcond
      fuel 0 N (Nat.zero_le N) (by omega) hN
  · intro fuel2 e h
    obtain ⟨he, j, _, _, hj⟩ :=
      wait_for_go_error_sound cond t (startedAt + timeout.getD wait_timeout) msg fuel2 0 e h
    exact ⟨he, j, hj⟩

theorem wait_for_timeout_spec_witness :
    wait_for (fun _ => false) (fun i => i) 0 0 (some 3) "page not loaded" 10
      = some (Except.error (GhostError.timeout "page not loaded")) :=
  (wait_for_timeout_spec (fun _ => false) (fun i => i) 0 0 (some 3)
    "page not loaded" 10 4 (fun _ => rfl) (by decide) (by decide)).1

/-- Claim C4: a consuming read of the resource buffer
(`_release_last_resources`) returns the whole buffer in the order the
network exchanges completed (`_request_ended` appends each completed
exchange, newest last), leaves the buffer empty, and an immediately
repeated consuming read with no intervening completed exchange returns the
empty sequence. -/
theorem release_resources_spec (s : SessionState) (replies : List Reply) :
    (release_last_resources s).1 = s.http_resources ∧
    ((release_last_resources s).2).http_resources = [] ∧
    (release_last_resources (release_last_resources s).2).1 = [] ∧
    (release_last_resources (replies.foldl request_ended s)).1 =
      s.http_resources ++
        (replies.filter (fun r => r.status.isSome)).map HttpResource.ofReply := by
  refine ⟨rfl, rfl, rfl, ?_⟩
  simpa [release_last_resources] using ingest_spec replies s

/-- Claim C9: `Session.capture` on a frame whose contents area
(height times width) exceeds the hard ceiling `23170 * 23170`, while the
current viewport area also exceeds it, returns no image — the explicit
too-large outcome, produced by a total function rather than an error. -/
theorem capture_too_large (fw fh vw vh : Nat)
    (hframe : 23170 * 23170 < fh * fw)
    (hview : 23170 * 23170 < vh * vw) :
    capture fw fh vw vh = none := by
  simp only [capture]
  rw [if_pos hframe, if_pos hview]

theorem capture_too_large_witness : capture 30000 30000 25000 25000 = none :=
  capture_too_large 30000 30000 25000 25000 (by norm_num) (by norm_num)

/-- A session state carrying only a leaked confirm expectation, as left
behind by a `confirm` block whose body raised. -/
def leakedConfirmState : SessionState :=
  { initialSession with confirm_expected := some (DialogAnswer.bool true) }

/-- Claim C1 counterexample: run the scoped `confirm` block on a fresh
session with a body that raises (and does not itself touch the
expectation).  Because the generator has no `try`/`finally`, the clearing
assignment after the yield is skipped: the expectation is still installed
after the block exits, and a subsequent confirm dialog fired with no new
expectation registered is answered with the leaked value instead of
failing with the configuration error. -/
theorem confirm_scope_leak_cex :
    SessionState.confirm initialSession (DialogAnswer.bool true)
        (fun s => (s, some "boom"))
      = (leakedConfirmState, some "boom") ∧
    leakedConfirmState.confirm_expected ≠ none ∧
    javaScriptConfirm leakedConfirmState "sure?"
      = Except.ok ({ leakedConfirmState with popup_messages := ["sure?"] },
                   DialogAnswer.bool true) := by
  refine ⟨rfl, by decide, rfl⟩

/-- Claim C1 (amended): when the scoped `confirm` / `prompt` block exits
normally, the corresponding expectation is cleared and a subsequent dialog
with no new expectation registered fails with the configuration error;
when the enclosed body raises, the clearing assignment after the yield is
skipped, so the block returns exactly the state the body left (the
expectation leaks when the body kept it). -/
theorem confirm_prompt_scope_spec (v w : DialogAnswer)
    (body body2 : SessionState → SessionState × Option String)
    (s : SessionState) (msg : String) :
    ((SessionState.confirm s v body).2 = none →
      (SessionState.confirm s v body).1.confirm_expected = none ∧
      javaScriptConfirm (SessionState.confirm s v body).1 msg
        = Except.error GhostError.mustSpecifyConfirmValue) ∧
    (∀ e, (SessionState.confirm s v body).2 = some e →
      (SessionState.confirm s v body).1
        = (body { s with confirm_expected := some v }).1) ∧
    ((SessionState.prompt s w body2).2 = none →
      (SessionState.prompt s w body2).1.prompt_expected = none ∧
      javaScriptPrompt (SessionState.prompt s w body2).1 msg
        = Except.error GhostError.mustSpecifyPromptValue) ∧
    (∀ e, (SessionState.prompt s w body2).2 = some e →
      (SessionState.prompt s w body2).1
        = (body2 { s with prompt_expected := some w }).1) := by
  refine ⟨?_, ?_, ?_, ?_⟩
  · intro h
    rcases hb : (body { s with confirm_expected := some v }).2 with _ | e
    · constructor
      · simp [SessionState.confirm, hb]
      · simp [SessionState.confirm, hb, javaScriptConfirm]
    · exfalso
      simp [SessionState.confirm, hb] at h
  · intro e he
    rcases hb : (body { s with confirm_expected := some v }).2 with _ | e2
    · exfalso
      simp [SessionState.confirm, hb] at he
    · simp [SessionState.confirm, hb]
  · intro h
    rcases hb : (body2 { s with prompt_expected := some w }).2 with _ | e
    · constructor
      · simp [SessionState.prompt, hb]
      · simp [SessionState.prompt, hb, javaScriptPrompt]
    · exfalso
      simp [SessionState.prompt, hb] at h
  · intro e he
    rcases hb : (body2 { s with prompt_expected := some w }).2 with _ | e2
    · exfalso
      simp [SessionState.prompt, hb] at he
    · simp [SessionState.prompt, hb]

theorem confirm_prompt_scope_spec_witness :
    (SessionState.confirm initialSession (DialogAnswer.bool false)
        (fun s => (s, none))).1.confirm_expected = none ∧
    javaScriptConfirm
        (SessionState.confirm initialSession (DialogAnswer.bool false)
          (fun s => (s, none))).1 "really?"
      = Except.error GhostError.mustSpecifyConfirmValue :=
  (confirm_prompt_scope_spec (DialogAnswer.bool false) (DialogAnswer.str "a")
    (fun s => (s, none)) (fun s => (s, none)) initialSession "really?").1 rfl

/-- Claim C7 counterexample: the first `Session.exit` on a live session
succeeds and removes all four handle attributes; calling `exit` again then
raises `AttributeError` at `del self.webview` (the attribute no longer
exists and has no class-level fallback), so teardown is not idempotent. -/
theorem exit_twice_cex :
    Session.exit { hasWebview := true, hasCookieJar := true,
                   hasManager := true, hasMainFrame := true }
      = Except.ok { hasWebview := false, hasCookieJar := false,
                    hasManager := false, hasMainFrame := false } ∧
    Session.exit { hasWebview := false, hasCookieJar := false,
                   hasManager := false, hasMainFrame := false }
      = Except.error (GhostError.attributeError "webview") := by
  exact ⟨rfl, rfl⟩

/-- Claim C7 (amended): whenever a call to `Session.exit` succeeds, a
second call on the resulting session raises `AttributeError` for
`webview` instead of succeeding — teardown is not idempotent. -/
theorem exit_second_raises (t u : TeardownState)
    (h : Session.exit t = Except.ok u) :
    Session.exit u = Except.error (GhostError.attributeError "webview") := by
  obtain ⟨a, b, c, d⟩ := t
  cases a <;> cases b <;> cases c <;> cases d
  all_goals simp [Session.exit, delAttr] at h
  all_goals simp [← h, Session.exit, delAttr]

theorem exit_second_raises_witness :
    Session.exit { hasWebview := false, hasCookieJar := false,
                   hasManager := false, hasMainFrame := false }
      = Except.error (GhostError.attributeError "webview") :=
  exit_second_raises
    { hasWebview := true, hasCookieJar := true,
      hasManager := true, hasMainFrame := true }
    { hasWebview := false, hasCookieJar := false,
      hasManager := false, hasMainFrame := false } rfl

/-- An engine cookie whose expiration date is exactly epoch second 0. -/
def cookieExpiryZero : QtCookie :=
  { name := "n", value := "v", domain := "example.com", path := "/",
    secure := false, expirationDate := some 0 }

/-- Claim C5 counterexample: an engine cookie whose expiry is epoch 0 is
within the signed-32-bit maximum, yet the round trip does not preserve it:
`save_cookies` stores `expires = 0` and `load_cookies.toQtCookie` skips
`setExpirationDate` whenever `expires` is zero, so the re-imported cookie
has no expiration date at all. -/
theorem cookie_expiry_zero_cex :
    (toQtCookie (toPyCookie cookieExpiryZero)).expirationDate = none ∧
    (toQtCookie (toPyCookie cookieExpiryZero)).expirationDate ≠ some 0 := by
  refine ⟨rfl, by decide⟩

lemma toQtCookie_fields (p : PyCookie) :
    (toQtCookie p).name = p.name ∧
    (toQtCookie p).value = p.value ∧
    (toQtCookie p).secure = p.secure ∧
    (toQtCookie p).domain = p.domain ∧
    (toQtCookie p).expirationDate
      = (if p.expires = 0 then none else some p.expires) := by
  by_cases h1 : p.expires = 0 <;> by_cases h2 : p.domain = "" <;>
    by_cases h3 : p.path_specified = true <;>
    simp [toQtCookie, h1, h2, h3, bne_iff_ne]

/-- Claim C5 (amended): the cookie round trip `toQtCookie ∘ toPyCookie`
preserves name, value, secure flag and domain exactly for every engine
cookie; a positive expiry of at most 2147483647 is preserved exactly, an
expiry above 2147483647 comes back as 2147483647 (so 4000000000 becomes
2147483647), and an expiry of exactly 0 is dropped — the re-imported
cookie carries no expiration date. -/
theorem cookie_round_trip_spec (c : QtCookie) (e : Nat) :
    (toQtCookie (toPyCookie c)).name = c.name ∧
    (toQtCookie (toPyCookie c)).value = c.value ∧
    (toQtCookie (toPyCookie c)).secure = c.secure ∧
    (toQtCookie (toPyCookie c)).domain = c.domain ∧
    (c.expirationDate = some e → 0 < e → e ≤ 2147483647 →
      (toQtCookie (toPyCookie c)).expirationDate = some e) ∧
    (c.expirationDate = some e → 2147483647 < e →
      (toQtCookie (toPyCookie c)).expirationDate = some 2147483647) ∧
    (c.expirationDate = some 0 →
      (toQtCookie (toPyCookie c)).expirationDate = none) := by
  obtain ⟨h1, h2, h3, h4, h5⟩ := toQtCookie_fields (toPyCookie c)
  refine ⟨h1, h2, h3, h4.trans ?_, ?_, ?_, ?_⟩
  · rfl
  · intro hexp hpos hle
    rw [h5]
    have hexpires : (toPyCookie c).expires = e := by
      simp [toPyCookie, hexp, toTime_t]
      omega
    rw [hexpires, if_neg (by omega)]
  · intro hexp hgt
    rw [h5]
    have hexpires : (toPyCookie c).expires = 2147483647 := by
      simp [toPyCookie, hexp, toTime_t]
      omega
    rw [hexpires, if_neg (by omega)]
  · intro hexp
    rw [h5]
    have hexpires : (toPyCookie c).expires = 0 := by
      simp [toPyCookie, hexp, toTime_t]
    rw [hexpires, if_pos rfl]

/-- A concrete engine cookie whose expiry 4000000000 exceeds the
signed-32-bit maximum. -/
def cookieLargeExpiry : QtCookie :=
  { name := "sid", value := "abc", domain := ".example.com", path := "/",
    secure := true, expirationDate := some 4000000000 }

theorem cookie_round_trip_spec_witness :
    (toQtCookie (toPyCookie cookieLargeExpiry)).name = "sid" ∧
    (toQtCookie (toPyCookie cookieLargeExpiry)).value = "abc" ∧
    (toQtCookie (toPyCookie cookieLargeExpiry)).secure = true ∧
    (toQtCookie (toPyCookie cookieLargeExpiry)).domain = ".example.com" ∧
    (toQtCookie (toPyCookie cookieLargeExpiry)).expirationDate = some 2147483647 := by
  have h := cookie_round_trip_spec cookieLargeExpiry 4000000000
  exact ⟨h.1, h.2.1, h.2.2.1, h.2.2.2.1, h.2.2.2.2.2.1 rfl (by norm_num)⟩

/-- Claim C8: the session-state guard of `Session._authenticate` is as the
claim describes (act only when credentials are pending and the one-shot
counter is zero), but on that very first challenge the code calls
`authenticator.serUser(username)` — an attribute `QAuthenticator` does not
have (`setUser` was clearly intended, compare the `setPassword` call on
the next line) — so Python raises `AttributeError` before any credential
is set and before the counter is incremented; challenges finding a
non-zero counter or no pending credentials leave the authenticator
untouched. -/
theorem authenticate_spec (s : SessionState) (a : Authenticator) (u p : String) :
    (s.auth = some (u, p) → s.auth_attempt = 0 →
      authenticate s a = Except.error (GhostError.attributeError "serUser")) ∧
    (s.auth = none → authenticate s a = Except.ok (s, a)) ∧
    (s.auth_attempt ≠ 0 → authenticate s a = Except.ok (s, a)) := by
  refine ⟨?_, ?_, ?_⟩
  · intro hauth hzero
    simp [authenticate, hauth, hzero]
  · intro hauth
    simp [authenticate, hauth]
  · intro hnz
    cases hauth : s.auth with
    | none => simp [authenticate, hauth]
    | some cred => simp [authenticate, hauth, hnz]

/-- A session in the middle of an `open("...", auth=("user", "pass"))`
call: `open` stored the credential pair and reset the one-shot counter. -/
def authPendingState : SessionState :=
  { initialSession with auth := some ("user", "pass"), auth_attempt := 0 }

theorem authenticate_spec_witness :
    authenticate authPendingState { user := none, password := none }
      = Except.error (GhostError.attributeError "serUser") :=
  (authenticate_spec authPendingState { user := none, password := none }
    "user" "pass").1 rfl rfl

/-- Claim C3: for an operation wrapped by `can_load_page`, requesting
`expect_loading` sets the `loaded` flag false before the wrapped engine
action runs, blocks until `loaded` is true again, and returns the entire
drained resource buffer together with a page resource that is one of the
drained resources whose URL equals the final frame URL exactly or with the
frame URL's `#`-fragment stripped (and no page resource when none
matches); not requesting it returns the action's own result at once,
consuming no events and draining nothing. -/
theorem can_load_page_spec {α : Type} (func : SessionState → SessionState × α)
    (chunks : List (List EngineEvent)) (s : SessionState) :
    (∀ (page : Option HttpResource) (resources : List HttpResource) (s3 : SessionState),
      can_load_page func true chunks s
          = some (CanLoadResult.loadedResult page resources s3) →
        (∃ s2, waitForLoaded (func { s with loaded := false }).1 chunks = some s2 ∧
          s2.loaded = true ∧ resources = s2.http_resources) ∧
        s3.http_resources = [] ∧
        (∀ r, page = some r →
          r ∈ resources ∧
            (s3.frameUrl = r.url ∨ url_without_hash s3.frameUrl = r.url)) ∧
        ((∀ r ∈ resources,
            s3.frameUrl ≠ r.url ∧ url_without_hash s3.frameUrl ≠ r.url) →
          page = none)) ∧
    can_load_page func false chunks s
      = some (CanLoadResult.direct (func s).2 (func s).1) := by
  constructor
  · intro page resources s3 h
    simp only [can_load_page, if_true] at h
    rcases hw : wait_for_page_loaded (func { s with loaded := false }).1 chunks with _ | ⟨p, rs, st⟩
    · rw [hw] at h
      simp at h
    · rw [hw] at h
      simp only [Option.some.injEq, CanLoadResult.loadedResult.injEq] at h
      obtain ⟨hp, hrs, hst⟩ := h
      subst hp
      subst hrs
      subst hst
      rcases hwl : waitForLoaded (func { s with loaded := false }).1 chunks with _ | s2
      · simp only [wait_for_page_loaded, hwl] at hw
        exact Option.noConfusion hw
      · simp only [wait_for_page_loaded, hwl, release_last_resources, Option.some.injEq,
          Prod.mk.injEq] at hw
        obtain ⟨hpage, hres, hstate⟩ := hw
        subst hpage
        subst hres
        subst hstate
        refine ⟨⟨s2, rfl, waitForLoaded_loaded chunks _ s2 hwl, rfl⟩, rfl, ?_, ?_⟩
        · intro r hr
          rcases foldl_pick_some _ s2.http_resources none r hr with ⟨hmem, hpred⟩ | hinit
          · refine ⟨hmem, ?_⟩
            simpa using hpred
          · exact absurd hinit (by simp)
        · intro hall
          apply foldl_pick_none
          intro x hx
          have hx2 := hall x hx
          have h1 := beq_eq_false_iff_ne.mpr hx2.1
          have h2 := beq_eq_false_iff_ne.mpr hx2.2
          simp [h1, h2]
  · rfl

/-- The completed network exchange of the witness scenario. -/
def r0 : HttpResource :=
  { url := "http://x/", http_status := some 200, content := [] }

/-- Witness action: an operation that leaves the session unchanged and
returns 42. -/
def clAction : SessionState → SessionState × Nat := fun s => (s, 42)

/-- Witness event trace: one sleep pump delivering load completion, the
final frame URL, and one finished reply. -/
def clChunks : List (List EngineEvent) :=
  [[EngineEvent.loadFinished, EngineEvent.frameUrlChanged "http://x/",
    EngineEvent.replyFinished { url := "http://x/", status := some 200, data := [] }]]

/-- The session state after the witness run of the expect-loading path. -/
def clS3 : SessionState :=
  { loaded := true
    http_resources := []
    frameUrl := "http://x/"
    confirm_expected := none
    prompt_expected := none
    popup_messages := []
    alertMsg := none
    auth := none
    auth_attempt := 0
    upload_file := none
    wait_timeout := 0 }

theorem can_load_page_spec_witness :
    can_load_page clAction false clChunks initialSession
      = some (CanLoadResult.direct 42 initialSession) ∧
    clS3.http_resources = [] ∧
    r0 ∈ [r0] ∧
    (clS3.frameUrl = r0.url ∨ url_without_hash clS3.frameUrl = r0.url) := by
  have h := can_load_page_spec clAction clChunks initialSession
  have hA := h.1 (some r0) [r0] clS3 rfl
  have hpage := hA.2.2.1 r0 rfl
  exact ⟨h.2, hA.2.1, hpage.1, hpage.2⟩

/-- An `input` element whose `type` attribute is `submit` (tag names come
uppercased from the engine; the source lowercases them). -/
def elSubmit : Element :=
  { tagName := "INPUT", attrs := [("type", "submit")], plainText := "",
    options := [], selectedIndex := none }

/-- Claim C6 counterexample: `set_field_value` on an `input` whose type is
`submit` — a combination absent from the dispatch table — does not raise
the unsupported-field-tag error: the `input` branch falls through every
type row without an `else`, so the call completes, fires the synthesised
events, and returns normally with nothing assigned. -/
theorem set_field_value_submit_cex :
    set_field_value initialSession [elSubmit] (FieldValue.str "x") true
      = Except.ok { session := initialSession, elements := [elSubmit],
                    res := none, resources := [],
                    fired := ["input", "change", "blur"] } := by
  rfl

/-- Claim C6 (amended): `set_field_value` fails with the
unsupported-field-tag error exactly when the element's lowercased tag name
is none of `select`, `textarea`, `input`; an `input` whose lowercased type
is in none of the dispatch rows (text-like, checkbox, radio, file)
instead completes silently — the session and the matched elements are
returned unchanged, with only the synthesised `input`/`change` (and
optional `blur`) events fired. -/
theorem set_field_value_dispatch_amended (s : SessionState) (el : Element)
    (rest : List Element) (value : FieldValue) (blur : Bool) :
    (lowerString el.tagName ∉ (["select", "textarea", "input"] : List String) →
      set_field_value s (el :: rest) value blur
        = Except.error GhostError.unsupportedFieldTag) ∧
    (lowerString el.tagName = "input" →
      textTypes.contains (lowerString (getAttr el "type")) = false →
      lowerString (getAttr el "type") ≠ "checkbox" →
      lowerString (getAttr el "type") ≠ "radio" →
      lowerString (getAttr el "type") ≠ "file" →
      set_field_value s (el :: rest) value blur
        = Except.ok { session := s, elements := el :: rest, res := none,
                      resources := [], fired := firedEvents blur }) := by
  constructor
  · intro hmem
    simp only [List.mem_cons, List.mem_singleton, not_or] at hmem
    have hs : (lowerString el.tagName == "select") = false :=
      beq_eq_false_iff_ne.mpr hmem.1
    have ht : (lowerString el.tagName == "textarea") = false :=
      beq_eq_false_iff_ne.mpr hmem.2.1
    have hi : (lowerString el.tagName == "input") = false :=
      beq_eq_false_iff_ne.mpr (by simpa using hmem.2.2)
    simp [set_field_value, hs, ht, hi]
  · intro hinput hty hcb hrad hfile
    have hs : (lowerString el.tagName == "select") = false := by
      rw [hinput]
      decide
    have ht : (lowerString el.tagName == "textarea") = false := by
      rw [hinput]
      decide
    have hi : (lowerString el.tagName == "input") = true := by
      rw [hinput]
      decide
    have h5 : (lowerString (getAttr el "type") == "checkbox") = false :=
      beq_eq_false_iff_ne.mpr hcb
    have h6 : (lowerString (getAttr el "type") == "radio") = false :=
      beq_eq_false_iff_ne.mpr hrad
    have h7 : (lowerString (getAttr el "type") == "file") = false :=
      beq_eq_false_iff_ne.mpr hfile
    have hty2 : lowerString (getAttr el "type") ∉ textTypes := by
      simpa using hty
    simp [set_field_value, hs, ht, hi, hty2, h5, h6, h7]

/-- An `input` element whose `type` attribute is `button`. -/
def elButton : Element :=
  { tagName := "INPUT", attrs := [("type", "button")], plainText := "",
    options := [], selectedIndex := none }

/-- A plain `div` element, outside the dispatch table's tag names. -/
def elDiv : Element :=
  { tagName := "DIV", attrs := [], plainText := "", options := [],
    selectedIndex := none }

theorem set_field_value_dispatch_witness :
    set_field_value initialSession [elButton] (FieldValue.str "x") false
      = Except.ok { session := initialSession, elements := [elButton],
                    res := none, resources := [], fired := ["input", "change"] } ∧
    set_field_value initialSession [elDiv] (FieldValue.str "x") true
      = Except.error GhostError.unsupportedFieldTag := by
  constructor
  · exact (set_field_value_dispatch_amended initialSession elButton []
      (FieldValue.str "x") false).2 (by decide) (by decide) (by decide)
      (by decide) (by decide)
  · exact (set_field_value_dispatch_amended initialSession elDiv []
      (FieldValue.str "x") true).1 (by decide)

lemma wait_for_page_loaded_preserves_dialogs (s : SessionState)
    (chunks : List (List EngineEvent)) (p : Option HttpResource)
    (rs : List HttpResource) (st : SessionState)
    (h : wait_for_page_loaded s chunks = some (p, rs, st)) :
    st.confirm_expected = s.confirm_expected ∧
    st.prompt_expected = s.prompt_expected := by
  rcases hwl : waitForLoaded s chunks with _ | s1
  · simp [wait_for_page_loaded, hwl] at h
  · simp only [wait_for_page_loaded, hwl, release_last_resources, Option.some.injEq,
      Prod.mk.injEq] at h
    obtain ⟨_, _, hstate⟩ := h
    obtain ⟨hc, hp⟩ := waitForLoaded_preserves_dialogs chunks s s1 hwl
    rw [← hstate]
    exact ⟨hc, hp⟩

lemma javaScriptConfirm_of_expected (st : SessionState) (v : DialogAnswer)
    (msg : String) (h : st.confirm_expected = some v) :
    javaScriptConfirm st msg
      = Except.ok ({ st with popup_messages := st.popup_messages ++ [msg] }, v) := by
  simp [javaScriptConfirm, h]

lemma javaScriptPrompt_of_expected (st : SessionState) (v : DialogAnswer)
    (msg : String) (h : st.prompt_expected = some v) :
    javaScriptPrompt st msg
      = Except.ok ({ st with popup_messages := st.popup_messages ++ [msg] }, v) := by
  simp [javaScriptPrompt, h]

/-- Claim C10: every `open` call with a non-`None`
`default_popup_response` installs that value as both the confirm and the
prompt expectation, and the expectations are still installed in the
session state `open` returns with (the load wait touches only the
`loaded` flag, the buffer and the frame URL, never the expectations), so a
dialog fired by any later operation is answered with that value rather
than failing for a missing expectation. -/
theorem open_default_popup_spec (s : SessionState)
    (auth : Option (String × String)) (v : DialogAnswer) (wait : Bool)
    (timeout : Option Nat) (chunks : List (List EngineEvent))
    (out : Option (Option HttpResource × List HttpResource))
    (s4 : SessionState) (msg msg2 : String)
    (h : openSession s auth (some v) wait timeout chunks = Except.ok (out, s4)) :
    s4.confirm_expected = some v ∧ s4.prompt_expected = some v ∧
    javaScriptConfirm s4 msg
      = Except.ok ({ s4 with popup_messages := s4.popup_messages ++ [msg] }, v) ∧
    javaScriptPrompt s4 msg2
      = Except.ok ({ s4 with popup_messages := s4.popup_messages ++ [msg2] }, v) := by
  have hprep : (openPrepare s auth (some v)).confirm_expected = some v ∧
      (openPrepare s auth (some v)).prompt_expected = some v := ⟨rfl, rfl⟩
  have hkey : s4.confirm_expected = some v ∧ s4.prompt_expected = some v := by
    cases wait with
    | false =>
      simp only [openSession, Bool.false_eq_true, if_false, Except.ok.injEq,
        Prod.mk.injEq] at h
      rw [← h.2]
      exact hprep
    | true =>
      cases timeout with
      | none => simp [openSession] at h
      | some t =>
        rcases hw : wait_for_page_loaded (openPrepare s auth (some v)) chunks
            with _ | ⟨p, rs, st⟩
        · simp [openSession, hw] at h
        · simp only [openSession, if_true, hw, Except.ok.injEq, Prod.mk.injEq] at h
          rw [← h.2]
          obtain ⟨hc, hp⟩ := wait_for_page_loaded_preserves_dialogs
            (openPrepare s auth (some v)) chunks p rs st hw
          exact ⟨hc.trans hprep.1, hp.trans hprep.2⟩
  exact ⟨hkey.1, hkey.2,
    javaScriptConfirm_of_expected s4 v msg hkey.1,
    javaScriptPrompt_of_expected s4 v msg2 hkey.2⟩

/-- The session state returned by the witness `open` call. -/
def openedState : SessionState :=
  { loaded := false
    http_resources := []
    frameUrl := ""
    confirm_expected := some (DialogAnswer.str "yes")
    prompt_expected := some (DialogAnswer.str "yes")
    popup_messages := []
    alertMsg := none
    auth := none
    auth_attempt := 0
    upload_file := none
    wait_timeout := 0 }

theorem open_default_popup_spec_witness :
    openedState.confirm_expected = some (DialogAnswer.str "yes") ∧
    openedState.prompt_expected = some (DialogAnswer.str "yes") ∧
    javaScriptConfirm openedState "proceed?"
      = Except.ok ({ openedState with popup_messages := ["proceed?"] },
                   DialogAnswer.str "yes") := by
  have h := open_default_popup_spec initialSession none (DialogAnswer.str "yes")
    false none [] none openedState "proceed?" "name?" rfl
  exact ⟨h.1, h.2.1, h.2.2.1⟩
